import Mathlib

/-!
Shallow embedding of `src/app.py` (Image-Compression-Service).

Modelling conventions:
- Python floats are modelled as rationals (ℚ).  Every concrete input used in
  a theorem below stays far from any rounding boundary, so the rational value
  of each expression agrees with its IEEE-double value there.
- Python `int(x)` on a float is truncation toward zero (`pyTrunc`); on a
  string it is a base-10 parse that raises `ValueError` on failure
  (`pyIntParse`).
- Exceptions are modelled with `Except String`, carrying the exception's
  textual message (`str(e)`); the exact wording of library messages is
  abbreviated (for instance the quotes Python puts around a path in
  `FileNotFoundError` are dropped), which no claim depends on.
- The filesystem and the PIL image library are an abstract environment
  `Env`: file existence, on-disk byte size, base64 of the raw bytes,
  decodability, and the JPEG encoder's output as a function of path,
  target dimension and quality.
- `flask.jsonify` is modelled faithfully: called with a single argument it
  serializes that argument to JSON and builds a response with the DEFAULT
  HTTP status 200.  It does not unpack a `(body, status)` tuple — Flask only
  unpacks a tuple returned directly from the view.  Both return sites of the
  handler execute `return jsonify(result)` with `result` a (dict, status)
  tuple, so the wire response is always HTTP 200 with the JSON array body
  [object, status-number].  `get_compressed_image` below denotes the Python
  variable `result` at the return site (the pair passed to jsonify, an
  association list of string fields with the intended status), and
  `get_compressed_image_http` the actual wire response `jsonify(result)`.
-/

namespace AppPy

/-- Python `int()` applied to a float value: truncation toward zero. -/
def pyTrunc (q : ℚ) : ℤ := if 0 ≤ q then ⌊q⌋ else ⌈q⌉

/-- Lines 33 and 36 of app.py, merged:
`compression_factor = (max_size_kb / current_size_kb) * 100` and
`quality = int(quality * compression_factor / 100)` — the pre-clamp
adjusted quality of the Quality Estimator. -/
def adjustedQualityPre (current_size_kb max_size_kb : ℚ) (quality : ℤ) : ℤ :=
  pyTrunc ((quality : ℚ) * ((max_size_kb / current_size_kb) * 100) / 100)

/-- Line 39 of app.py: `quality = max(1, min(quality, 95))`. -/
def adjustedQuality (current_size_kb max_size_kb : ℚ) (quality : ℤ) : ℤ :=
  max 1 (min (adjustedQualityPre current_size_kb max_size_kb quality) 95)

/-- The Quality Estimator's pre-clamp value as the SPEC words it
(`adjusted_quality = round(base_quality * compression_factor / 100)`,
nearest-integer rounding), for comparison with `adjustedQualityPre`,
which is what the code computes. -/
def adjustedQualityPreSpec (current_size_kb max_size_kb : ℚ) (quality : ℤ) : ℤ :=
  round ((quality : ℚ) * ((max_size_kb / current_size_kb) * 100) / 100)

/-- Abstract environment: the filesystem under the working directory and the
PIL image library.  `existsF` is os.path.exists, `sizeB` the on-disk byte
size of a path, `fileB64` the base64 encoding of its raw bytes, `decodeOk`
whether Image.open followed by resize at the given target dimension succeeds,
`decodeMsg` the exception text when it does not, and `encBytes`/`encB64` the
JPEG encoder's output byte count and base64 string as a function of source
path, target dimension and quality. -/
structure Env where
  existsF : String → Bool
  sizeB : String → Nat
  fileB64 : String → String
  decodeOk : String → ℤ × ℤ → Bool
  decodeMsg : String → String
  encBytes : String → ℤ × ℤ → ℤ → Nat
  encB64 : String → ℤ × ℤ → ℤ → String

/-- An HTTP request: request.args.get as a partial map from query-parameter
name to raw string value. -/
structure Req where
  args : String → Option String

/-- Accumulator pass over the digit characters of a base-10 numeral; fails on
the first non-digit. -/
def parseNatAux : List Char → ℕ → Option ℕ
  | [], acc => some acc
  | c :: cs, acc =>
    if c.isDigit then parseNatAux cs (acc * 10 + (c.toNat - 48)) else none

/-- Base-10 integer parse of a string: an optional minus sign then at least
one digit (whitespace, plus signs and underscores, which Python also
tolerates, are not exercised by any claim). -/
def pyStrToInt? (s : String) : Option ℤ :=
  match s.data with
  | [] => none
  | '-' :: cs =>
    if cs.isEmpty then none else (parseNatAux cs 0).map (fun n => -(n : ℤ))
  | cs => (parseNatAux cs 0).map (fun n => (n : ℤ))

/-- Python int(s) on a string: base-10 parse, ValueError on failure. -/
def pyIntParse (s : String) : Except String ℤ :=
  match pyStrToInt? s with
  | some n => Except.ok n
  | none => Except.error ("invalid literal for int with base 10: " ++ s)

/-- Model of `int(request.args.get(k))` for a required parameter: int(None)
raises TypeError when the parameter is absent. -/
def pyIntOfArg : Option String → Except String ℤ
  | none => Except.error "int argument must be a string, not NoneType"
  | some s => pyIntParse s

/-- Model of `int(request.args.get(k, d))` for an optional parameter with an
int default: the default is returned unparsed when the parameter is absent. -/
def pyIntOfArgD : Option String → ℤ → Except String ℤ
  | none, d => Except.ok d
  | some s, _ => pyIntParse s

/-- Model of `os.path.join('images', image_name)` receiving the raw
image_name lookup: TypeError when the parameter is absent (None). -/
def ofJoinArg : Option String → Except String String
  | none => Except.error "join argument must be str, not NoneType"
  | some s => Except.ok s

/-- Lines 13-20 of app.py, get_image_data_size: open the file in binary mode
(FileNotFoundError when absent), return the data (abstracted by its base64
string) and the size len(data)/1024 in KB. -/
def get_image_data_size (env : Env) (image_path : String) : Except String (String × ℚ) :=
  if env.existsF image_path then
    Except.ok (env.fileB64 image_path, (env.sizeB image_path : ℚ) / 1024)
  else
    Except.error ("[Errno 2] No such file or directory: " ++ image_path)

/-- Lines 23-50 of app.py, compress_image: read the file, decode and resize
(raises on undecodable bytes), compute the adjusted quality (float division
raises on a zero-byte source), clamp it, JPEG-encode at the clamped quality
and report the output size in KB with the base64 of the output. -/
def compress_image (env : Env) (image_path : String) (max_size_kb : ℤ)
    (target_dimension : ℤ × ℤ) (quality : ℤ) : Except String (ℚ × String) :=
  match get_image_data_size env image_path with
  | Except.error e => Except.error e
  | Except.ok (_image_data, current_size_kb) =>
    if env.decodeOk image_path target_dimension = false then
      Except.error (env.decodeMsg image_path)
    else if current_size_kb = 0 then
      Except.error "float division by zero"
    else
      let q := adjustedQuality current_size_kb (max_size_kb : ℚ) quality
      Except.ok ((env.encBytes image_path target_dimension q : ℚ) / 1024,
        env.encB64 image_path target_dimension q)

/-- A value of the handler's `result` variable: line 122 pairs a body with a
status, line 138 stores a bare body. -/
inductive RawResult where
  | withStatus : List (String × String) → Nat → RawResult
  | bodyOnly : List (String × String) → RawResult

/-- Round half to even at integer precision, as Python float formatting
rounds. -/
def roundHalfEven (q : ℚ) : ℤ :=
  if q - ⌊q⌋ < 1 / 2 then ⌊q⌋
  else if 1 / 2 < q - ⌊q⌋ then ⌊q⌋ + 1
  else if ⌊q⌋ % 2 = 0 then ⌊q⌋ else ⌊q⌋ + 1

/-- Python f-string formatting {x:.2f} of a nonnegative value: two decimal
places. -/
def fmt2 (q : ℚ) : String :=
  let cents := (roundHalfEven (q * 100)).toNat
  toString (cents / 100) ++ "." ++ (if cents % 100 < 10 then "0" else "") ++
    toString (cents % 100)

/-- Lines 106-152 of app.py, the body of the try block of
get_compressed_image.  Each `match` propagates a raised exception.  The
existence check at line 121 and the short-circuit at lines 132-138 assign
`result` without returning it (`result1`, `_result2`): both stores are dead,
exactly as in the source, where the full compression path at lines 141-151
unconditionally overwrites `result` before the only `return`. -/
def handlerBody (env : Env) (req : Req) (elapsed_ms : ℚ) :
    Except String (List (String × String) × Nat) :=
  let image_nameO := req.args "image_name"
  match pyIntOfArg (req.args "target_width") with
  | Except.error e => Except.error e
  | Except.ok target_width =>
    match pyIntOfArg (req.args "target_height") with
    | Except.error e => Except.error e
    | Except.ok target_height =>
      match ofJoinArg image_nameO with
      | Except.error e => Except.error e
      | Except.ok image_name =>
        let image_path := "images" ++ "/" ++ image_name
        let result1 : Option RawResult :=
          if env.existsF image_path = false then
            some (RawResult.withStatus
              [("error", "Image " ++ image_name ++ " not found")] 404)
          else none
        match pyIntOfArgD (req.args "max_size_kb") 1024 with
        | Except.error e => Except.error e
        | Except.ok max_size_kb =>
          match get_image_data_size env image_path with
          | Except.error e => Except.error e
          | Except.ok (image_b64, image_size_kb) =>
            let _result2 : Option RawResult :=
              if image_size_kb ≤ (max_size_kb : ℚ) then
                some (RawResult.bodyOnly
                  [("message", "Image size is already less than " ++
                      toString max_size_kb ++ " KB"),
                   ("image_base64", image_b64)])
              else result1
            match pyIntOfArgD (req.args "quality") 85 with
            | Except.error e => Except.error e
            | Except.ok quality =>
              match compress_image env image_path max_size_kb
                  (target_width, target_height) quality with
              | Except.error e => Except.error e
              | Except.ok (csize, cb64) =>
                Except.ok
                  ([("time_elapsed", toString (pyTrunc elapsed_ms) ++ " ms"),
                    ("compressed_image_size", fmt2 csize ++ " KB"),
                    ("compressed_image_base64", cb64)], 200)

/-- Lines 106-155 of app.py: the value of the Python variable `result` at
the return site — the (body, intended-status) pair the handler passes to
jsonify — with every exception caught at the top level and converted to the
500-shaped pair of line 154.  This is NOT the wire response: both return
sites wrap it as `return jsonify(result)`, modelled by
`get_compressed_image_http`. -/
def get_compressed_image (env : Env) (req : Req) (elapsed_ms : ℚ) :
    List (String × String) × Nat :=
  match handlerBody env req elapsed_ms with
  | Except.ok r => r
  | Except.error msg => ([("error", "An error occured: " ++ msg)], 500)

/-- Modelled from the spec: the simpler, non-buggy always-compress semantics
the spec recommends (design note on the short-circuit being dead code) — the
try body with the two dead `result` stores removed and everything else
unchanged. -/
def handlerBodyAC (env : Env) (req : Req) (elapsed_ms : ℚ) :
    Except String (List (String × String) × Nat) :=
  let image_nameO := req.args "image_name"
  match pyIntOfArg (req.args "target_width") with
  | Except.error e => Except.error e
  | Except.ok target_width =>
    match pyIntOfArg (req.args "target_height") with
    | Except.error e => Except.error e
    | Except.ok target_height =>
      match ofJoinArg image_nameO with
      | Except.error e => Except.error e
      | Except.ok image_name =>
        let image_path := "images" ++ "/" ++ image_name
        match pyIntOfArgD (req.args "max_size_kb") 1024 with
        | Except.error e => Except.error e
        | Except.ok max_size_kb =>
          match get_image_data_size env image_path with
          | Except.error e => Except.error e
          | Except.ok (_image_b64, _image_size_kb) =>
            match pyIntOfArgD (req.args "quality") 85 with
            | Except.error e => Except.error e
            | Except.ok quality =>
              match compress_image env image_path max_size_kb
                  (target_width, target_height) quality with
              | Except.error e => Except.error e
              | Except.ok (csize, cb64) =>
                Except.ok
                  ([("time_elapsed", toString (pyTrunc elapsed_ms) ++ " ms"),
                    ("compressed_image_size", fmt2 csize ++ " KB"),
                    ("compressed_image_base64", cb64)], 200)

/-- Modelled from the spec: the whole handler under always-compress
semantics, producing the same result pair passed to jsonify, with the same
catch-all error conversion. -/
def get_compressed_image_AC (env : Env) (req : Req) (elapsed_ms : ℚ) :
    List (String × String) × Nat :=
  match handlerBodyAC env req elapsed_ms with
  | Except.ok r => r
  | Except.error msg => ([("error", "An error occured: " ++ msg)], 500)

/-- A JSON value, as Flask serializes Python data: a str becomes a JSON
string, an int a number, a dict an object, a tuple or list an array. -/
inductive Json where
  | str : String → Json
  | num : Nat → Json
  | obj : List (String × Json) → Json
  | arr : List Json → Json

/-- An HTTP response: status code and serialized JSON body. -/
structure HttpResponse where
  status : Nat
  body : Json

/-- flask.jsonify applied to the single argument `result` of the handler:
the argument — a ({string fields}, status-int) tuple — is serialized whole,
a tuple becoming a JSON array, and the response carries the DEFAULT status
200.  jsonify does not unpack (body, status); Flask does that only for a
tuple returned directly from the view, which the handler never does. -/
def jsonify (result : List (String × String) × Nat) : HttpResponse :=
  ⟨200, Json.arr
    [Json.obj (result.1.map fun kv => (kv.1, Json.str kv.2)),
     Json.num result.2]⟩

/-- Lines 152 and 155 of app.py: the wire response of get_compressed_image,
`return jsonify(result)`. -/
def get_compressed_image_http (env : Env) (req : Req) (elapsed_ms : ℚ) :
    HttpResponse :=
  jsonify (get_compressed_image env req elapsed_ms)

/-- One entry of the get_images response. -/
structure ImageDetail where
  image_name : String
  image_size : String
deriving DecidableEq

/-- The images directory as get_images sees it: os.listdir and
os.path.getsize. -/
structure DirState where
  listdir : List String
  sizeB : String → Nat

/-- Python str.lower over the characters of a string. -/
def strLower (s : String) : String := ⟨s.data.map Char.toLower⟩

/-- Python str.endswith: the second string is a suffix of the first. -/
def strEndsWith (s p : String) : Bool := p.data.isSuffixOf s.data

/-- Line 189 of app.py: `filename.lower().endswith(('.jpg', '.jpeg',
'.png'))`. -/
def isImageFile (filename : String) : Bool :=
  strEndsWith (strLower filename) ".jpg" ||
    strEndsWith (strLower filename) ".jpeg" ||
    strEndsWith (strLower filename) ".png"

/-- Lines 180-196 of app.py, get_images: keep the image files, report each
with `int(os.path.getsize(path) / 1024)` whole kilobytes (float division then
int(), i.e. floor for nonnegative sizes, i.e. Nat division). -/
def get_images (d : DirState) : List ImageDetail :=
  d.listdir.filterMap fun filename =>
    if isImageFile filename then
      some { image_name := filename,
             image_size :=
               toString (d.sizeB ("images" ++ "/" ++ filename) / 1024) ++ " KB" }
    else none

/-- A concrete demo environment: every path exists and holds 102400 bytes
(100 KB), every image decodes, and the JPEG encoder emits 1024*q bytes (q KB)
at quality q. -/
def demoEnv : Env where
  existsF := fun _ => true
  sizeB := fun _ => 102400
  fileB64 := fun _ => "QUJD"
  decodeOk := fun _ _ => true
  decodeMsg := fun _ => "cannot identify image file"
  encBytes := fun _ _ q => 1024 * q.toNat
  encB64 := fun _ _ q => "enc" ++ toString q

/-- A concrete environment whose images directory is empty. -/
def emptyEnv : Env where
  existsF := fun _ => false
  sizeB := fun _ => 0
  fileB64 := fun _ => ""
  decodeOk := fun _ _ => false
  decodeMsg := fun _ => "cannot identify image file"
  encBytes := fun _ _ _ => 0
  encB64 := fun _ _ _ => ""

/-- Query string image_name=a.jpg, target_width=10, target_height=10. -/
def baseArgs : String → Option String := fun k =>
  if k = "image_name" then some "a.jpg"
  else if k = "target_width" then some "10"
  else if k = "target_height" then some "10"
  else none

/-- Request with only the three required parameters. -/
def reqBase : Req := ⟨baseArgs⟩

/-- reqBase plus target_size_kb=50 — the parameter name the SPEC documents. -/
def reqTargetSize : Req :=
  ⟨fun k => if k = "target_size_kb" then some "50" else baseArgs k⟩

/-- reqBase plus max_size_kb=50 — the parameter name the CODE reads. -/
def reqMaxSize : Req :=
  ⟨fun k => if k = "max_size_kb" then some "50" else baseArgs k⟩

/-- Request for the absent image missing.jpg at 100x100. -/
def reqMissing : Req :=
  ⟨fun k =>
    if k = "image_name" then some "missing.jpg"
    else if k = "target_width" then some "100"
    else if k = "target_height" then some "100"
    else none⟩

/-- Request with no query parameters at all. -/
def reqNone : Req := ⟨fun _ => none⟩

/-- The request with the two optional parameters of the compression handler
pinned to their documented defaults, 1024 and 85. -/
def withDefaults (req : Req) : Req :=
  ⟨fun k =>
    if k = "max_size_kb" then some "1024"
    else if k = "quality" then some "85"
    else req.args k⟩

/-- The clamp `max 1 (min q 95)` lands in [1, 95] whatever its argument:
shared helper for the range theorems. -/
theorem adjustedQuality_mem (current_size_kb max_size_kb : ℚ) (quality : ℤ) :
    1 ≤ adjustedQuality current_size_kb max_size_kb quality ∧
      adjustedQuality current_size_kb max_size_kb quality ≤ 95 := by
  unfold adjustedQuality
  exact ⟨le_max_left _ _, max_le (by norm_num) (min_le_right _ _)⟩

/-- C1: for every base_quality in [1,100] and every original_size_kb > 0 and
target_size_kb ≥ 0 (hence every compression_factor ≥ 0), the quality computed
by the Quality Estimator after clamping lies in [1, 95]. -/
theorem quality_estimator_range (current_size_kb max_size_kb : ℚ) (quality : ℤ)
    (hc : 0 < current_size_kb) (hm : 0 ≤ max_size_kb)
    (h1 : 1 ≤ quality) (h100 : quality ≤ 100) :
    1 ≤ adjustedQuality current_size_kb max_size_kb quality ∧
      adjustedQuality current_size_kb max_size_kb quality ≤ 95 :=
  adjustedQuality_mem current_size_kb max_size_kb quality

/-- Witness for C1 at original 2 KB, target 1 KB, base quality 85. -/
theorem quality_estimator_range_witness :
    1 ≤ adjustedQuality 2 1 85 ∧ adjustedQuality 2 1 85 ≤ 95 :=
  quality_estimator_range 2 1 85 (by norm_num) (by norm_num) (by decide) (by decide)

/-- C9: when target_size_kb equals original_size_kb and base_quality is 85,
the compression factor is exactly 100 and the adjusted quality is 85,
both before and after the clamp. -/
theorem equal_sizes_keep_quality (current_size_kb : ℚ) (hc : 0 < current_size_kb) :
    adjustedQualityPre current_size_kb current_size_kb 85 = 85 ∧
      adjustedQuality current_size_kb current_size_kb 85 = 85 := by
  have hpre : adjustedQualityPre current_size_kb current_size_kb 85 = 85 := by
    unfold adjustedQualityPre
    rw [div_self (ne_of_gt hc)]
    norm_num [pyTrunc]
  refine ⟨hpre, ?_⟩
  unfold adjustedQuality
  rw [hpre]
  decide

/-- Witness for C9 at original = target = 2 KB. -/
theorem equal_sizes_keep_quality_witness :
    adjustedQualityPre 2 2 85 = 85 ∧ adjustedQuality 2 2 85 = 85 :=
  equal_sizes_keep_quality 2 (by norm_num)

/-- C4 counterexample: at original 3 KB, target 2 KB, base quality 85 the
exact value is 56.666…; the code (Python int()) truncates it to 56 while the
spec's round(…) gives 57, so the pre-clamp quality is not nearest-integer
rounding. -/
theorem adjusted_quality_not_round_cex :
    adjustedQualityPre 3 2 85 = 56 ∧ adjustedQualityPreSpec 3 2 85 = 57 ∧
      adjustedQualityPre 3 2 85 ≠ adjustedQualityPreSpec 3 2 85 := by
  have h1 : adjustedQualityPre 3 2 85 = 56 := by
    unfold adjustedQualityPre pyTrunc
    norm_num
  have h2 : adjustedQualityPreSpec 3 2 85 = 57 := by
    unfold adjustedQualityPreSpec
    rw [round_eq]
    norm_num
  exact ⟨h1, h2, by rw [h1, h2]; decide⟩

/-- C4 amended: for original_size_kb > 0, target_size_kb ≥ 0 and
base_quality ≥ 0, the pre-clamp adjusted quality is the FLOOR (truncation,
Python int()) of base_quality * compression_factor / 100, not its
nearest-integer rounding. -/
theorem adjusted_quality_is_floor (current_size_kb max_size_kb : ℚ) (quality : ℤ)
    (hc : 0 ≤ current_size_kb) (hm : 0 ≤ max_size_kb) (hq : 0 ≤ quality) :
    adjustedQualityPre current_size_kb max_size_kb quality =
      ⌊(quality : ℚ) * ((max_size_kb / current_size_kb) * 100) / 100⌋ := by
  have hnn : (0 : ℚ) ≤ (quality : ℚ) * ((max_size_kb / current_size_kb) * 100) / 100 := by
    apply div_nonneg
    · apply mul_nonneg
      · exact_mod_cast hq
      · exact mul_nonneg (div_nonneg hm hc) (by norm_num)
    · norm_num
  unfold adjustedQualityPre pyTrunc
  rw [if_pos hnn]

/-- Witness for the C4 amendment at original 3 KB, target 2 KB, base 85. -/
theorem adjusted_quality_is_floor_witness :
    adjustedQualityPre 3 2 85 = ⌊((85 : ℤ) : ℚ) * (((2 : ℚ) / 3) * 100) / 100⌋ :=
  adjusted_quality_is_floor 3 2 85 (by norm_num) (by norm_num) (by decide)

/-- Helper: pyTrunc of 0 is 0. -/
theorem pyTrunc_zero : pyTrunc 0 = 0 := by
  unfold pyTrunc
  norm_num

/-- Helper: the clamped quality for a 100 KB source at target 1024 KB and
base 85 is 95 (the pre-clamp value 870.4 truncates to 870). -/
theorem adjQ_demo_1024 : adjustedQuality 100 1024 85 = 95 := by
  have hpre : adjustedQualityPre 100 1024 85 = 870 := by
    unfold adjustedQualityPre pyTrunc
    norm_num
  unfold adjustedQuality
  rw [hpre]
  decide

/-- Helper: the clamped quality for a 100 KB source at target 50 KB and
base 85 is 42 (the pre-clamp value 42.5 truncates to 42). -/
theorem adjQ_demo_50 : adjustedQuality 100 50 85 = 42 := by
  have hpre : adjustedQualityPre 100 50 85 = 42 := by
    unfold adjustedQualityPre pyTrunc
    norm_num
  unfold adjustedQuality
  rw [hpre]
  decide

/-- Helper: reading any file of the demo environment yields its base64 and
102400/1024 = 100 KB. -/
theorem gids_demo (p : String) :
    get_image_data_size demoEnv p = Except.ok ("QUJD", 100) := by
  unfold get_image_data_size demoEnv
  norm_num

/-- Helper: compressing any demo file at target 1024 KB and base quality 85
encodes at clamped quality 95, emitting 95 KB. -/
theorem comp_demo_1024 (p : String) (dim : ℤ × ℤ) :
    compress_image demoEnv p 1024 dim 85 = Except.ok (95, "enc95") := by
  have h := gids_demo p
  unfold compress_image
  rw [h]
  show (if demoEnv.decodeOk p dim = false then _ else _) = _
  norm_num [demoEnv]
  rw [adjQ_demo_1024]
  exact ⟨by norm_num [show Int.toNat 95 = 95 from rfl], by rfl⟩

/-- Helper: compressing any demo file at target 50 KB and base quality 85
encodes at clamped quality 42, emitting 42 KB. -/
theorem comp_demo_50 (p : String) (dim : ℤ × ℤ) :
    compress_image demoEnv p 50 dim 85 = Except.ok (42, "enc42") := by
  have h := gids_demo p
  unfold compress_image
  rw [h]
  show (if demoEnv.decodeOk p dim = false then _ else _) = _
  norm_num [demoEnv]
  rw [adjQ_demo_50]
  exact ⟨by norm_num [show Int.toNat 42 = 42 from rfl], by rfl⟩

/-- Helper: two-decimal formatting of 95. -/
theorem fmt2_95 : fmt2 95 = "95.00" := by
  have h : roundHalfEven ((95 : ℚ) * 100) = 9500 := by
    unfold roundHalfEven
    norm_num
  unfold fmt2
  rw [h]
  rfl

/-- Helper: two-decimal formatting of 42. -/
theorem fmt2_42 : fmt2 42 = "42.00" := by
  have h : roundHalfEven ((42 : ℚ) * 100) = 4200 := by
    unfold roundHalfEven
    norm_num
  unfold fmt2
  rw [h]
  rfl

/-- Helper: full run of the handler body on the demo environment with only
the required parameters: target size defaults to 1024, quality to 85, the
source is 100 KB, the encoder emits 95 KB at clamped quality 95. -/
theorem run_demo_base :
    handlerBody demoEnv reqBase 0 =
      Except.ok ([("time_elapsed", "0 ms"),
                  ("compressed_image_size", "95.00 KB"),
                  ("compressed_image_base64", "enc95")], 200) := by
  simp only [handlerBody,
    show reqBase.args "image_name" = some "a.jpg" from rfl,
    show reqBase.args "target_width" = some "10" from rfl,
    show reqBase.args "target_height" = some "10" from rfl,
    show reqBase.args "max_size_kb" = none from rfl,
    show reqBase.args "quality" = none from rfl,
    show pyIntOfArg (some "10") = Except.ok 10 from rfl,
    show ofJoinArg (some "a.jpg") = Except.ok "a.jpg" from rfl,
    pyIntOfArgD, gids_demo, comp_demo_1024, pyTrunc_zero, fmt2_95,
    show toString (0 : ℤ) = "0" from rfl,
    show ("0" : String) ++ " ms" = "0 ms" from rfl,
    show ("95.00" : String) ++ " KB" = "95.00 KB" from rfl]

/-- Helper: the same run with an extra target_size_kb=50 parameter, which
the handler never reads: the result is unchanged. -/
theorem run_demo_targetSize :
    handlerBody demoEnv reqTargetSize 0 =
      Except.ok ([("time_elapsed", "0 ms"),
                  ("compressed_image_size", "95.00 KB"),
                  ("compressed_image_base64", "enc95")], 200) := by
  simp only [handlerBody,
    show reqTargetSize.args "image_name" = some "a.jpg" from rfl,
    show reqTargetSize.args "target_width" = some "10" from rfl,
    show reqTargetSize.args "target_height" = some "10" from rfl,
    show reqTargetSize.args "max_size_kb" = none from rfl,
    show reqTargetSize.args "quality" = none from rfl,
    show pyIntOfArg (some "10") = Except.ok 10 from rfl,
    show ofJoinArg (some "a.jpg") = Except.ok "a.jpg" from rfl,
    pyIntOfArgD, gids_demo, comp_demo_1024, pyTrunc_zero, fmt2_95,
    show toString (0 : ℤ) = "0" from rfl,
    show ("0" : String) ++ " ms" = "0 ms" from rfl,
    show ("95.00" : String) ++ " KB" = "95.00 KB" from rfl]

/-- Helper: the same run with max_size_kb=50, the parameter name the code
reads: the encoder now runs at clamped quality 42 and emits 42 KB. -/
theorem run_demo_maxSize :
    handlerBody demoEnv reqMaxSize 0 =
      Except.ok ([("time_elapsed", "0 ms"),
                  ("compressed_image_size", "42.00 KB"),
                  ("compressed_image_base64", "enc42")], 200) := by
  simp only [handlerBody,
    show reqMaxSize.args "image_name" = some "a.jpg" from rfl,
    show reqMaxSize.args "target_width" = some "10" from rfl,
    show reqMaxSize.args "target_height" = some "10" from rfl,
    show reqMaxSize.args "max_size_kb" = some "50" from rfl,
    show reqMaxSize.args "quality" = none from rfl,
    show pyIntOfArg (some "10") = Except.ok 10 from rfl,
    show ofJoinArg (some "a.jpg") = Except.ok "a.jpg" from rfl,
    show pyIntParse "50" = Except.ok 50 from rfl,
    pyIntOfArgD, gids_demo, comp_demo_50, pyTrunc_zero, fmt2_42,
    show toString (0 : ℤ) = "0" from rfl,
    show ("0" : String) ++ " ms" = "0 ms" from rfl,
    show ("42.00" : String) ++ " KB" = "42.00 KB" from rfl]

/-- C3: the short-circuit branch and the 404 existence check only assign the
overwritten `result`; the handler returns the same value as the
always-compress handler on every environment and request, so it is
equivalent to one that always compresses. -/
theorem handler_equals_always_compress :
    ∀ (env : Env) (req : Req) (t : ℚ),
      get_compressed_image env req t = get_compressed_image_AC env req t := by
  intro env req t
  rfl

/-- Helper: every exception raised inside the try body is caught and
converted into the result pair ({error: "An error occured: <message>"},
500) — the pair line 155 then passes to jsonify. -/
theorem every_exception_gives_500 (env : Env) (req : Req) (t : ℚ) (msg : String)
    (h : handlerBody env req t = Except.error msg) :
    get_compressed_image env req t =
      ([("error", "An error occured: " ++ msg)], 500) := by
  unfold get_compressed_image
  rw [h]

/-- C10: whenever compress_image returns, the JPEG encoder was invoked at the
clamped quality, which lies in [1, 95] for every integer quality argument and
every source file size, and the returned pair is the encoder output at that
quality. -/
theorem encoder_quality_in_range (env : Env) (image_path : String)
    (max_size_kb : ℤ) (dim : ℤ × ℤ) (quality : ℤ) (r : ℚ × String)
    (h : compress_image env image_path max_size_kb dim quality = Except.ok r) :
    1 ≤ adjustedQuality ((env.sizeB image_path : ℚ) / 1024) (max_size_kb : ℚ) quality ∧
      adjustedQuality ((env.sizeB image_path : ℚ) / 1024) (max_size_kb : ℚ) quality ≤ 95 ∧
      r = ((env.encBytes image_path dim
              (adjustedQuality ((env.sizeB image_path : ℚ) / 1024) (max_size_kb : ℚ) quality) : ℚ) / 1024,
           env.encB64 image_path dim
              (adjustedQuality ((env.sizeB image_path : ℚ) / 1024) (max_size_kb : ℚ) quality)) := by
  refine ⟨(adjustedQuality_mem _ _ _).1, (adjustedQuality_mem _ _ _).2, ?_⟩
  unfold compress_image get_image_data_size at h
  cases hex : env.existsF image_path with
  | false => simp [hex] at h
  | true =>
    simp only [hex, if_true] at h
    cases hdec : env.decodeOk image_path dim with
    | false => simp [hdec] at h
    | true =>
      simp only [hdec] at h
      by_cases hz : ((env.sizeB image_path : ℚ) / 1024) = 0
      · simp [hz] at h
      · simp only [hz, if_false, if_neg, Bool.true_eq_false, reduceCtorEq,
          Except.ok.injEq] at h
        exact h.symm

/-- Witness for C10: on the demo environment (100 KB source, default target
1024 KB) the encoder runs at the clamped quality and the bounds hold. -/
theorem encoder_quality_in_range_witness :
    1 ≤ adjustedQuality ((demoEnv.sizeB "images/a.jpg" : ℚ) / 1024) ((1024 : ℤ) : ℚ) 85 ∧
      adjustedQuality ((demoEnv.sizeB "images/a.jpg" : ℚ) / 1024) ((1024 : ℤ) : ℚ) 85 ≤ 95 ∧
      ((95 : ℚ), "enc95") =
        ((demoEnv.encBytes "images/a.jpg" (10, 10)
            (adjustedQuality ((demoEnv.sizeB "images/a.jpg" : ℚ) / 1024) ((1024 : ℤ) : ℚ) 85) : ℚ) / 1024,
         demoEnv.encB64 "images/a.jpg" (10, 10)
            (adjustedQuality ((demoEnv.sizeB "images/a.jpg" : ℚ) / 1024) ((1024 : ℤ) : ℚ) 85)) :=
  encoder_quality_in_range demoEnv "images/a.jpg" 1024 (10, 10) 85 ((95 : ℚ), "enc95")
    (comp_demo_1024 "images/a.jpg" (10, 10))

/-- Helper: every successful run of the try body produces the result pair of
line 151 — exactly the three fields time_elapsed (an integer then " ms"),
compressed_image_size (a two-decimal value then " KB") and
compressed_image_base64, with intended status 200 — before jsonify wraps
it. -/
theorem success_response_shape (env : Env) (req : Req) (t : ℚ)
    (r : List (String × String) × Nat)
    (h : handlerBody env req t = Except.ok r) :
    ∃ (size_kb : ℚ) (b64 : String),
      r = ([("time_elapsed", toString (pyTrunc t) ++ " ms"),
            ("compressed_image_size", fmt2 size_kb ++ " KB"),
            ("compressed_image_base64", b64)], 200) := by
  simp only [handlerBody] at h
  repeat' split at h
  all_goals first
  | (exact ⟨_, _, (Except.ok.inj h).symm⟩)
  | (simp at h)

/-- C5 (code bug evidence): every exception in the try body is caught and
converted into the pair ({error: "An error occured: <message>"}, 500), but
line 155 returns jsonify(result), which serializes the whole tuple: on the
wire the response is HTTP 200 with the JSON array body [{error: ...}, 500],
never status 500 with the bare object body the claim states.  Concretely so
for the parameterless request, whose int(None) raises TypeError. -/
theorem exception_result_wrapped_not_500 :
    (∀ (env : Env) (req : Req) (t : ℚ) (msg : String),
        handlerBody env req t = Except.error msg →
          get_compressed_image_http env req t =
            ⟨200, Json.arr
              [Json.obj [("error", Json.str ("An error occured: " ++ msg))],
               Json.num 500]⟩) ∧
      get_compressed_image_http emptyEnv reqNone 0 =
        ⟨200, Json.arr
          [Json.obj [("error", Json.str ("An error occured: " ++
              "int argument must be a string, not NoneType"))],
           Json.num 500]⟩ ∧
      (get_compressed_image_http emptyEnv reqNone 0).status ≠ 500 := by
  have hgen : ∀ (env : Env) (req : Req) (t : ℚ) (msg : String),
      handlerBody env req t = Except.error msg →
        get_compressed_image_http env req t =
          ⟨200, Json.arr
            [Json.obj [("error", Json.str ("An error occured: " ++ msg))],
             Json.num 500]⟩ := by
    intro env req t msg h
    unfold get_compressed_image_http
    rw [every_exception_gives_500 env req t msg h]
    rfl
  have hconc := hgen emptyEnv reqNone 0
    "int argument must be a string, not NoneType" rfl
  refine ⟨hgen, hconc, ?_⟩
  rw [hconc]
  decide

/-- C6 (code bug evidence): on every successful run the handler builds the
pair (three-field object, 200) but line 152 returns jsonify(result): the
wire response does carry HTTP status 200, yet its body is the JSON array
[object, 200] — the object with exactly the fields time_elapsed,
compressed_image_size and compressed_image_base64 is wrapped, not sent
bare as the claim (and the handler docstring, which documents an object
schema) states.  Concretely so for the successful demo request. -/
theorem success_body_array_wrapped :
    (∀ (env : Env) (req : Req) (t : ℚ) (r : List (String × String) × Nat),
        handlerBody env req t = Except.ok r →
          ∃ (size_kb : ℚ) (b64 : String),
            get_compressed_image_http env req t =
              ⟨200, Json.arr
                [Json.obj
                  [("time_elapsed", Json.str (toString (pyTrunc t) ++ " ms")),
                   ("compressed_image_size", Json.str (fmt2 size_kb ++ " KB")),
                   ("compressed_image_base64", Json.str b64)],
                 Json.num 200]⟩) ∧
      get_compressed_image_http demoEnv reqBase 0 =
        ⟨200, Json.arr
          [Json.obj
            [("time_elapsed", Json.str "0 ms"),
             ("compressed_image_size", Json.str "95.00 KB"),
             ("compressed_image_base64", Json.str "enc95")],
           Json.num 200]⟩ ∧
      (get_compressed_image_http demoEnv reqBase 0).body ≠
        Json.obj
          [("time_elapsed", Json.str "0 ms"),
           ("compressed_image_size", Json.str "95.00 KB"),
           ("compressed_image_base64", Json.str "enc95")] := by
  have hbase : get_compressed_image_http demoEnv reqBase 0 =
      ⟨200, Json.arr
        [Json.obj
          [("time_elapsed", Json.str "0 ms"),
           ("compressed_image_size", Json.str "95.00 KB"),
           ("compressed_image_base64", Json.str "enc95")],
         Json.num 200]⟩ := by
    have h0 : get_compressed_image demoEnv reqBase 0 =
        ([("time_elapsed", "0 ms"), ("compressed_image_size", "95.00 KB"),
          ("compressed_image_base64", "enc95")], 200) := by
      unfold get_compressed_image
      rw [run_demo_base]
    unfold get_compressed_image_http
    rw [h0]
    rfl
  refine ⟨?_, hbase, ?_⟩
  · intro env req t r h
    obtain ⟨sz, b64, hr⟩ := success_response_shape env req t r h
    refine ⟨sz, b64, ?_⟩
    have hres : get_compressed_image env req t = r := by
      simp only [get_compressed_image, h]
    unfold get_compressed_image_http
    rw [hres, hr]
    rfl
  · rw [hbase]
    simp

/-- C2 (code bug evidence): requesting the absent image missing.jpg at
100x100 does NOT return the 404 body built at line 122 of app.py — that
assignment lacks a return, the handler falls through, open() raises
FileNotFoundError, and the catch-all converts it into the 500 error shape. -/
theorem missing_image_gets_500_not_404 :
    get_compressed_image emptyEnv reqMissing 0 =
      ([("error",
         "An error occured: [Errno 2] No such file or directory: images/missing.jpg")],
       500) := by
  rfl

/-- C7 counterexample: supplying target_size_kb=50 (the SPEC's parameter
name) changes nothing — the run equals the run with no size parameter at
all — while supplying max_size_kb=50 (the CODE's parameter name) changes
the result. -/
theorem size_param_named_max_size_kb_cex :
    get_compressed_image demoEnv reqTargetSize 0 =
        get_compressed_image demoEnv reqBase 0 ∧
      get_compressed_image demoEnv reqTargetSize 0 ≠
        get_compressed_image demoEnv reqMaxSize 0 := by
  have h1 : get_compressed_image demoEnv reqTargetSize 0 =
      ([("time_elapsed", "0 ms"), ("compressed_image_size", "95.00 KB"),
        ("compressed_image_base64", "enc95")], 200) := by
    unfold get_compressed_image
    rw [run_demo_targetSize]
  have h2 : get_compressed_image demoEnv reqBase 0 =
      ([("time_elapsed", "0 ms"), ("compressed_image_size", "95.00 KB"),
        ("compressed_image_base64", "enc95")], 200) := by
    unfold get_compressed_image
    rw [run_demo_base]
  have h3 : get_compressed_image demoEnv reqMaxSize 0 =
      ([("time_elapsed", "0 ms"), ("compressed_image_size", "42.00 KB"),
        ("compressed_image_base64", "enc42")], 200) := by
    unfold get_compressed_image
    rw [run_demo_maxSize]
  refine ⟨h1.trans h2.symm, ?_⟩
  rw [h1, h3]
  decide

/-- C7 amended: the optional size parameter the handler reads is named
max_size_kb (not target_size_kb); when it and the quality parameter are
omitted the handler behaves exactly as if max_size_kb=1024 and quality=85
had been supplied. -/
theorem omitted_size_and_quality_default (env : Env) (req : Req) (t : ℚ)
    (hm : req.args "max_size_kb" = none) (hq : req.args "quality" = none) :
    get_compressed_image env req t =
      get_compressed_image env (withDefaults req) t := by
  unfold get_compressed_image handlerBody
  rw [show (withDefaults req).args "image_name" = req.args "image_name" from rfl,
    show (withDefaults req).args "target_width" = req.args "target_width" from rfl,
    show (withDefaults req).args "target_height" = req.args "target_height" from rfl,
    show pyIntOfArgD ((withDefaults req).args "max_size_kb") 1024 =
      Except.ok 1024 from rfl,
    show pyIntOfArgD ((withDefaults req).args "quality") 85 =
      Except.ok 85 from rfl,
    hm, hq]
  rfl

/-- Witness for the C7 amendment: the demo request carries neither
max_size_kb nor quality. -/
theorem omitted_size_and_quality_default_witness :
    get_compressed_image demoEnv reqBase 0 =
      get_compressed_image demoEnv (withDefaults reqBase) 0 :=
  omitted_size_and_quality_default demoEnv reqBase 0 rfl rfl

/-- C8: get_images returns exactly the files whose lower-cased name ends in
.jpg, .jpeg or .png, each with its byte size divided by 1024 truncated to a
whole number of KB; in particular the directory holding photo.PNG (2048
bytes) and notes.txt yields exactly the entry (photo.PNG, 2 KB). -/
theorem get_images_spec :
    (∀ (d : DirState) (e : ImageDetail),
        e ∈ get_images d ↔
          ∃ filename ∈ d.listdir, isImageFile filename = true ∧
            e = ⟨filename,
              toString (d.sizeB ("images" ++ "/" ++ filename) / 1024) ++ " KB"⟩) ∧
      get_images ⟨["photo.PNG", "notes.txt"],
          fun p => if p = "images/photo.PNG" then 2048 else 100⟩ =
        [⟨"photo.PNG", "2 KB"⟩] := by
  constructor
  · intro d e
    simp only [get_images, List.mem_filterMap]
    constructor
    · rintro ⟨f, hf, hsome⟩
      by_cases hI : isImageFile f = true
      · rw [if_pos hI] at hsome
        exact ⟨f, hf, hI, (Option.some.inj hsome).symm⟩
      · rw [if_neg hI] at hsome
        cases hsome
    · rintro ⟨f, hf, hI, he⟩
      exact ⟨f, hf, by rw [if_pos hI, he]⟩
  · rfl

end AppPy
